import Mathlib

/-!
Shallow embedding of the Payment Orchestration & Settlement core of the
Helping-hands-together donation platform (Flask/SQLAlchemy application).

Monetary values (Python floats) are modelled as rationals.  Request-handler
functions are modelled as pure functions from an explicit application state
(the donation and campaign tables) and the request data to a response code
and the successor state.  Fallible Python code is modelled with `Except`
over an explicit Python-exception type; network calls are modelled by
passing the provider's response (or the raised exception) as an argument.
Keyed-hash functions (HMAC-SHA512 / HMAC-SHA256) are passed as parameters:
every property proved here holds for an arbitrary hash function, only the
control flow around the hash is taken from the source.
-/

/-- Python truncation toward zero of a rational, the semantics of `int(x)`. -/
def pyInt (q : ℚ) : ℤ := if 0 ≤ q then ⌊q⌋ else -⌊-q⌋

/-- Donation status strings used by the application
(`src/models.py`, `Donation.status`). -/
inductive DStatus
  | pending
  | awaiting_verification
  | completed
  | rejected
  | cancelled
  | failed
deriving DecidableEq

/-- Donation record, the settlement-relevant columns of `models.Donation`
(`src/models.py` lines 68-79).  Presentation-only columns (donor name and
email, anonymity flag, timestamps) are omitted: no settlement operation
reads them. -/
structure Donation where
  id : Nat
  campaignId : Nat
  amount : ℚ
  status : DStatus
  transactionId : Option String
deriving DecidableEq

/-- Campaign record, the settlement-relevant columns of `models.Campaign`
(`src/models.py` lines 46-58). -/
structure Campaign where
  id : Nat
  goal_amount : ℚ
  raised_amount : ℚ
deriving DecidableEq

/-- The persistent state the settlement core reads and mutates: the
donation and campaign tables. -/
structure AppState where
  donations : List Donation
  campaigns : List Campaign
deriving DecidableEq

/-- Lookup `Donation.query.get(id)`. -/
def findDonation (st : AppState) (did : Nat) : Option Donation :=
  st.donations.find? (fun d => d.id == did)

/-- Lookup `Donation.query.filter_by(transaction_id=reference).first()`. -/
def findDonationByTx (st : AppState) (ref : String) : Option Donation :=
  st.donations.find? (fun d => d.transactionId == some ref)

/-- Overwrite the status of donation `did`, the effect of
`donation.status = s; db.session.commit()`. -/
def setStatus (st : AppState) (did : Nat) (s : DStatus) : AppState :=
  { st with donations :=
      st.donations.map (fun d => if d.id == did then { d with status := s } else d) }

/-- Add `amt` to the raised amount of campaign `cid`, the effect of
`campaign.raised_amount += amt`. -/
def creditCampaign (st : AppState) (cid : Nat) (amt : ℚ) : AppState :=
  { st with campaigns :=
      st.campaigns.map (fun c => if c.id == cid then { c with raised_amount := c.raised_amount + amt } else c) }

/-- The two commit lines shared by every settlement site in the source:
`donation.status = 'completed'; donation.campaign.raised_amount += donation.amount`. -/
def settle (st : AppState) (d : Donation) : AppState :=
  creditCampaign (setStatus st d.id DStatus.completed) d.campaignId d.amount

/-- Python exceptions relevant to the payment adapters. -/
inductive PyErr
  | attributeError
  | typeError
  | requestError (msg : String)
deriving DecidableEq

/-- The string `str(e)` of a modelled exception. -/
def pyErrMsg : PyErr → String
  | PyErr.attributeError => "AttributeError"
  | PyErr.typeError => "TypeError"
  | PyErr.requestError m => m

/-- Webhook signature check of `PaystackPayment.verify_webhook`
(`src/payments.py` lines 189-196):
`hmac.new(self.secret_key.encode('utf-8'), body, hashlib.sha512).hexdigest() == signature`.
When `secret_key` is `None`, `.encode` raises `AttributeError`; when the
signature header is absent (`None`), Python's `str == None` is `False`.
`h5` is the HMAC-SHA512 hex digest, passed as a parameter. -/
def paystackVerifyWebhook (h5 : String → String → String)
    (secretKey signature : Option String) (body : String) : Except PyErr Bool :=
  match secretKey with
  | none => Except.error PyErr.attributeError
  | some k =>
    match signature with
    | none => Except.ok false
    | some s => Except.ok (decide (h5 k body = s))

/-- Webhook signature check of `CoinbaseCommercePayment.verify_webhook`
(`src/payments.py` lines 260-267):
`hmac.compare_digest(hmac.new(self.webhook_secret.encode('utf-8'), body, hashlib.sha256).hexdigest(), signature)`.
When `webhook_secret` is `None`, `.encode` raises `AttributeError`; when the
signature header is absent, `hmac.compare_digest(str, None)` raises
`TypeError`.  `h2` is the HMAC-SHA256 hex digest, passed as a parameter. -/
def coinbaseVerifyWebhook (h2 : String → String → String)
    (secret signature : Option String) (body : String) : Except PyErr Bool :=
  match secret with
  | none => Except.error PyErr.attributeError
  | some k =>
    match signature with
    | none => Except.error PyErr.typeError
    | some s => Except.ok (decide (h2 k body = s))

/-- Parsed Paystack webhook event: `event['event']` and
`event['data']['reference']`. -/
structure PaystackEvent where
  event : String
  reference : String
deriving DecidableEq

/-- Parsed Coinbase webhook event: `event['type']`, `event['data']['id']`
and `event['data']['metadata'].get('donation_id')`. -/
structure CoinbaseEvent where
  etype : String
  chargeId : String
  donationId : Option Nat
deriving DecidableEq

/-- Route `POST /webhooks/paystack` (`src/main.py` lines 307-323, identical
in `src/app.py` lines 306-329).  `parse` models `request.json` together
with the dictionary lookups; a raised verification or parsing exception
propagates as an unhandled 500 response with no commit. -/
def paystackWebhook (h5 : String → String → String) (secret signature : Option String)
    (body : String) (parse : String → Option PaystackEvent) (st : AppState) :
    Nat × AppState :=
  match paystackVerifyWebhook h5 secret signature body with
  | Except.error _ => (500, st)
  | Except.ok false => (400, st)
  | Except.ok true =>
    match parse body with
    | none => (500, st)
    | some ev =>
      if ev.event = "charge.success" then
        match findDonationByTx st ev.reference with
        | some d => if d.status = DStatus.pending then (200, settle st d) else (200, st)
        | none => (200, st)
      else (200, st)

/-- Route `POST /webhooks/coinbase` (`src/app.py` lines 278-304). -/
def coinbaseWebhook (h2 : String → String → String) (secret signature : Option String)
    (body : String) (parse : String → Option CoinbaseEvent) (st : AppState) :
    Nat × AppState :=
  match coinbaseVerifyWebhook h2 secret signature body with
  | Except.error _ => (500, st)
  | Except.ok false => (400, st)
  | Except.ok true =>
    match parse body with
    | none => (500, st)
    | some ev =>
      if ev.etype = "charge:confirmed" then
        match ev.donationId with
        | some did =>
          match findDonation st did with
          | some d => if d.status = DStatus.pending then (200, settle st d) else (200, st)
          | none => (200, st)
        | none => (200, st)
      else (200, st)

/-- Result of `PayPalPayment.capture_order`: a dict that either contains
an `'error'` key or carries the order `status`. -/
inductive CaptureResult
  | ok (status : String)
  | err (msg : String)
deriving DecidableEq

/-- Route `GET /paypal/success` (`src/main.py` lines 264-282, identical in
`src/app.py` lines 175-197).  `capture` is the provider's response to
`capture_order(token)`.  Note: the donation's current status is NOT
inspected; when the capture reports `COMPLETED` the settlement commit runs
unconditionally.  The boolean is `true` for the success redirect. -/
def paypalSuccess (donationId : Option Nat) (token : Option String)
    (capture : CaptureResult) (st : AppState) : Bool × AppState :=
  match donationId, token with
  | some did, some _ =>
    (match findDonation st did with
     | some d =>
       (match capture with
        | CaptureResult.ok s =>
          if s = "COMPLETED" then (true, settle st d) else (false, st)
        | CaptureResult.err _ => (false, st))
     | none => (false, st))
  | _, _ => (false, st)

/-- Route `POST /admin/donation/<id>/confirm` (`src/admin.py` lines 379-391). -/
def confirmDonation (st : AppState) (i : Nat) : AppState :=
  match findDonation st i with
  | none => st
  | some d =>
    if d.status = DStatus.pending ∨ d.status = DStatus.awaiting_verification then
      settle st d
    else st

/-- Route `POST /admin/donation/<id>/reject` (`src/admin.py` lines 393-404). -/
def rejectDonation (st : AppState) (i : Nat) : AppState :=
  match findDonation st i with
  | none => st
  | some d =>
    if d.status ≠ DStatus.completed then setStatus st i DStatus.rejected else st

/-- Route `GET /donation/cancel/<id>` (`src/app.py` lines 226-233):
`donation.status = 'cancelled'` with no guard on the current status. -/
def donationCancel (st : AppState) (i : Nat) : AppState :=
  match findDonation st i with
  | none => st
  | some _ => setStatus st i DStatus.cancelled

/-- Route `POST /confirm_payment/<id>` (`src/main.py` lines 252-258):
`donation.status = 'awaiting_verification'` with no guard on the current
status (a 404 on a missing donation leaves the state unchanged). -/
def confirmManualPayment (st : AppState) (i : Nat) : AppState :=
  match findDonation st i with
  | none => st
  | some _ => setStatus st i DStatus.awaiting_verification

/-- Payment-method registry entry as read by the donate route:
identity, type tag and active flag (`src/models.py` lines 81-108). -/
structure PMethod where
  id : Nat
  ptype : String
  active : Bool
deriving DecidableEq

/-- Outcome of the donate route. -/
inductive DonateOutcome
  | notFound
  | refused (msg : String)
  | manualRedirect (d : Donation)
  | processorHandled (d : Donation)
deriving DecidableEq

/-- The Donation record persisted by the outcome, if any. -/
def persistedDonation : DonateOutcome → Option Donation
  | DonateOutcome.notFound => none
  | DonateOutcome.refused _ => none
  | DonateOutcome.manualRedirect d => some d
  | DonateOutcome.processorHandled d => some d

/-- Route `POST /donate/<id>` (`src/main.py` lines 156-208), in source
order: campaign `get_or_404`; amount parse (parse failure yields `0.0`);
missing `payment_method` field refused; payment method `get_or_404`
(no `active` filter); `amount <= 0` refused; missing donor name or email
refused; then the Donation row is persisted with status `pending` and the
request is routed to the manual page or a processor. -/
def donate (campaignExists : Bool) (methods : List PMethod)
    (donorName donorEmail : Option String) (amountRaw : Option ℚ)
    (paymentMethodId : Option Nat) (newId campId : Nat) : DonateOutcome :=
  if campaignExists = false then DonateOutcome.notFound else
  let amount := amountRaw.getD 0
  match paymentMethodId with
  | none => DonateOutcome.refused "Please select a payment method"
  | some pmid =>
    match methods.find? (fun m => m.id == pmid) with
    | none => DonateOutcome.notFound
    | some pm =>
      if amount ≤ 0 then DonateOutcome.refused "Please enter a valid donation amount"
      else
        match donorName, donorEmail with
        | some _, some _ =>
          let d : Donation :=
            { id := newId, campaignId := campId, amount := amount,
              status := DStatus.pending, transactionId := none }
          if pm.ptype = "bank" ∨ pm.ptype = "crypto" then DonateOutcome.manualRedirect d
          else DonateOutcome.processorHandled d
        | _, _ => DonateOutcome.refused "Please provide your name and email address"

/-- An outbound HTTP request as the adapters build it with the `requests`
library: endpoint, authentication data present, and the value of the
`timeout` keyword argument (`none` when the call site does not pass one,
in which case `requests` waits without bound). -/
structure HttpReq where
  verb : String
  url : String
  hasAuth : Bool
  timeout : Option Nat
deriving DecidableEq

/-- The token-exchange request of `PayPalPayment.get_access_token`
(`src/payments.py` lines 23-39): `requests.post(url, headers=headers,
auth=auth, data=data)` — no `timeout` keyword. -/
def paypalTokenReq (baseUrl : String) : HttpReq :=
  { verb := "POST", url := baseUrl ++ "/v1/oauth2/token", hasAuth := true, timeout := none }

/-- The order-creation request of `PayPalPayment.create_order`
(`src/payments.py` lines 41-88): `requests.post(url, headers=headers,
json=payload)` — no `timeout` keyword. -/
def paypalOrderReq (baseUrl : String) : HttpReq :=
  { verb := "POST", url := baseUrl ++ "/v2/checkout/orders", hasAuth := true, timeout := none }

/-- The capture request of `PayPalPayment.capture_order`
(`src/payments.py` lines 90-108) — no `timeout` keyword. -/
def paypalCaptureReq (baseUrl orderId : String) : HttpReq :=
  { verb := "POST", url := baseUrl ++ "/v2/checkout/orders/" ++ orderId ++ "/capture",
    hasAuth := true, timeout := none }

/-- The transaction-setup request of `PaystackPayment.initialize_transaction`
(`src/payments.py` lines 125-161): `requests.post(url, headers=headers,
json=payload)` — no `timeout` keyword. -/
def paystackInitReq : HttpReq :=
  { verb := "POST", url := "https://api.paystack.co/transaction/initialize",
    hasAuth := true, timeout := none }

/-- The verification request of `PaystackPayment.verify_transaction`
(`src/payments.py` lines 163-187) — no `timeout` keyword. -/
def paystackVerifyReq (reference : String) : HttpReq :=
  { verb := "GET", url := "https://api.paystack.co/transaction/verify/" ++ reference,
    hasAuth := true, timeout := none }

/-- The charge-creation request of `CoinbaseCommercePayment.create_charge`
(`src/payments.py` lines 207-242) — no `timeout` keyword. -/
def coinbaseChargeReq : HttpReq :=
  { verb := "POST", url := "https://api.commerce.coinbase.com/charges",
    hasAuth := true, timeout := none }

/-- Body of the provider's token response; `access_token := none` models a
response without that key, whose lookup raises `KeyError` inside the `try`. -/
structure TokenResp where
  access_token : Option String
deriving DecidableEq

/-- `PayPalPayment.get_access_token` (`src/payments.py` lines 23-39)
applied to the network outcome: every exception (connection error, non-2xx
via `raise_for_status`, JSON or key error) is caught and `None` is
returned. -/
def getAccessToken (outcome : Except PyErr TokenResp) : Option String :=
  match outcome with
  | Except.error _ => none
  | Except.ok r => r.access_token

/-- Body of the provider's create-order response. `links` are
`(rel, href)` pairs. -/
structure OrderData where
  orderId : String
  status : String
  links : List (String × String)
deriving DecidableEq

/-- The `'approval_url'` extraction loop of `create_order`. -/
def findApprovalUrl (links : List (String × String)) : Option String :=
  (links.find? (fun l => l.1 == "approve")).map (fun l => l.2)

/-- Result dict of `create_order`: on success the order id, approval URL
and status; otherwise a dict with an `'error'` key. -/
inductive OrderResult
  | ok (orderId : String) (approvalUrl : Option String) (status : String)
  | err (msg : String)
deriving DecidableEq

/-- `PayPalPayment.create_order` (`src/payments.py` lines 41-88) applied to
the access token obtained first and the network outcome of the order call:
a failed token exchange or any raised exception becomes an error dict. -/
def createOrder (token : Option String) (outcome : Except PyErr OrderData) : OrderResult :=
  match token with
  | none => OrderResult.err "Failed to authenticate with PayPal"
  | some _ =>
    match outcome with
    | Except.error e => OrderResult.err (pyErrMsg e)
    | Except.ok d => OrderResult.ok d.orderId (findApprovalUrl d.links) d.status

/-- The JSON payload built by `PaystackPayment.initialize_transaction`
(`src/payments.py` lines 125-161): `amount_kobo = int(amount * 100)` with
hard-coded currency `'NGN'`; no exchange-rate lookup appears anywhere in
the adapter and nothing besides this payload is stored. -/
structure PaystackPayload where
  email : String
  amount : ℤ
  currency : String
  reference : Option String
deriving DecidableEq

/-- Payload construction of `initialize_transaction`. -/
def paystackInitPayload (email : String) (amount : ℚ) (reference : Option String) :
    PaystackPayload :=
  { email := email, amount := pyInt (amount * 100), currency := "NGN",
    reference := reference }

/-- Body of Paystack's transaction-setup response. -/
structure PaystackInitResp where
  status : Bool
  authorization_url : String
  access_code : String
  reference : String
  message : Option String
deriving DecidableEq

/-- Result dict of `initialize_transaction`. -/
inductive PInitResult
  | ok (authorizationUrl accessCode reference : String)
  | err (msg : String)
deriving DecidableEq

/-- `PaystackPayment.initialize_transaction` (`src/payments.py` lines
125-161) applied to the network outcome: raised exceptions are caught and
returned as an error dict; a response with `status` false yields the
provider's message or the default text. -/
def paystackInitTx (outcome : Except PyErr PaystackInitResp) : PInitResult :=
  match outcome with
  | Except.error e => PInitResult.err (pyErrMsg e)
  | Except.ok r =>
    if r.status then PInitResult.ok r.authorization_url r.access_code r.reference
    else PInitResult.err (r.message.getD "Transaction initialization failed")

/-- The PayPal branch of the donate route in `src/app.py` (lines 124-137)
after the Donation row was committed with status `pending`: on a
successful order the transaction id is attached; on an error dict the
row is left untouched and the donor is sent back with a flash message. -/
def appDonatePaypalAfter (d : Donation) (res : OrderResult) : Donation :=
  match res with
  | OrderResult.ok oid _ _ => { d with transactionId := some oid }
  | OrderResult.err _ => d

/-- Payment-method form data accepted by the admin registry route
(`src/forms.py`, `PaymentMethodForm`). -/
structure PMForm where
  name : String
  ptype : String
  details : Option String
  crypto_wallet_address : Option String
  crypto_currency : Option String
  bank_name : Option String
  account_name : Option String
  account_number : Option String
  paypal_client_id : Option String
  paypal_secret : Option String
  paystack_public_key : Option String
  paystack_secret_key : Option String
deriving DecidableEq

/-- The PaymentMethod row as persisted (`src/models.py` lines 81-108). -/
structure PMRecord where
  name : String
  ptype : String
  details : Option String
  crypto_wallet_address : Option String
  crypto_currency : Option String
  bank_name : Option String
  account_name : Option String
  account_number : Option String
  paypal_client_id : Option String
  paypal_secret : Option String
  paystack_public_key : Option String
  paystack_secret_key : Option String
  active : Bool
deriving DecidableEq

/-- Route `POST /admin/payment-methods` (`src/admin.py` lines 231-264):
the row is built directly from the form fields of the selected type and
committed.  No call to `SecurityManager.encrypt_data` occurs on this path;
every field, secret or not, is stored exactly as submitted. -/
def addPaymentMethod (f : PMForm) : PMRecord :=
  let base : PMRecord :=
    { name := f.name, ptype := f.ptype, details := f.details,
      crypto_wallet_address := none, crypto_currency := none,
      bank_name := none, account_name := none, account_number := none,
      paypal_client_id := none, paypal_secret := none,
      paystack_public_key := none, paystack_secret_key := none,
      active := true }
  if f.ptype = "crypto" then
    { base with crypto_wallet_address := f.crypto_wallet_address,
                crypto_currency := f.crypto_currency }
  else if f.ptype = "bank" then
    { base with bank_name := f.bank_name, account_name := f.account_name,
                account_number := f.account_number }
  else if f.ptype = "paypal" then
    { base with paypal_client_id := f.paypal_client_id,
                paypal_secret := f.paypal_secret }
  else if f.ptype = "paystack" then
    { base with paystack_public_key := f.paystack_public_key,
                paystack_secret_key := f.paystack_secret_key }
  else base

/-- Rounding rule named by the specification for the initialize/verify
adapter: convert with an exchange rate and round the minor-unit amount
half-up.  This definition follows the spec's words, to be compared with
the conversion the source performs (`pyInt (amount * 100)`); it is NOT
part of the source. -/
def specRoundHalfUpMinor (rate amount : ℚ) : ℤ := ⌊amount * rate * 100 + 1/2⌋

/-- `Campaign.progress_percentage` (`src/models.py` lines 62-65):
`min(int((self.raised_amount / self.goal_amount) * 100), 100)` under the
guard `self.goal_amount > 0`, otherwise `0`. -/
def progress_percentage (c : Campaign) : ℤ :=
  if 0 < c.goal_amount then min (pyInt (c.raised_amount / c.goal_amount * 100)) 100
  else 0

/-- Helper: Python `int` of a nonnegative rational is its floor. -/
theorem pyInt_eq_floor (q : ℚ) (h : 0 ≤ q) : pyInt q = ⌊q⌋ := by
  simp [pyInt, h]

/-- Claim C1: settlement is claimed idempotent for every trigger, but the
PayPal redirect callback performs the settlement commit without inspecting
the donation's current status.  Evaluating `paypalSuccess` at a donation
that is already `completed` (amount 50, campaign already credited to 50):
the capture reports COMPLETED and the campaign is credited a second time,
to 100, instead of the state being left unchanged. -/
theorem claim1_paypal_recredits_completed :
    paypalSuccess (some 1) (some "tok") (CaptureResult.ok "COMPLETED")
        { donations := [{ id := 1, campaignId := 7, amount := 50,
                          status := DStatus.completed, transactionId := some "ORD1" }],
          campaigns := [{ id := 7, goal_amount := 1000, raised_amount := 50 }] } =
      (true,
        { donations := [{ id := 1, campaignId := 7, amount := 50,
                          status := DStatus.completed, transactionId := some "ORD1" }],
          campaigns := [{ id := 7, goal_amount := 1000, raised_amount := 100 }] }) ∧
    (paypalSuccess (some 1) (some "tok") (CaptureResult.ok "COMPLETED")
        { donations := [{ id := 1, campaignId := 7, amount := 50,
                          status := DStatus.completed, transactionId := some "ORD1" }],
          campaigns := [{ id := 7, goal_amount := 1000, raised_amount := 50 }] }).2 ≠
      { donations := [{ id := 1, campaignId := 7, amount := 50,
                        status := DStatus.completed, transactionId := some "ORD1" }],
        campaigns := [{ id := 7, goal_amount := 1000, raised_amount := 50 }] } := by
  constructor
  · simp [paypalSuccess, findDonation, settle, creditCampaign, setStatus, List.find?]
    norm_num
  · simp [paypalSuccess, findDonation, settle, creditCampaign, setStatus, List.find?]

/-- Claim C2 counterexample: the donor-facing cancel route moves a donation
OUT of the terminal `completed` state.  On a state whose only donation is
`completed`, `GET /donation/cancel/1` rewrites the status to `cancelled`
instead of leaving the record unchanged. -/
theorem claim2_cancel_leaves_terminal_cex :
    donationCancel
        { donations := [{ id := 1, campaignId := 7, amount := 50,
                          status := DStatus.completed, transactionId := some "ORD1" }],
          campaigns := [{ id := 7, goal_amount := 1000, raised_amount := 50 }] } 1 ≠
      { donations := [{ id := 1, campaignId := 7, amount := 50,
                        status := DStatus.completed, transactionId := some "ORD1" }],
        campaigns := [{ id := 7, goal_amount := 1000, raised_amount := 50 }] } ∧
    findDonation
      (donationCancel
        { donations := [{ id := 1, campaignId := 7, amount := 50,
                          status := DStatus.completed, transactionId := some "ORD1" }],
          campaigns := [{ id := 7, goal_amount := 1000, raised_amount := 50 }] } 1) 1 =
      some { id := 1, campaignId := 7, amount := 50,
             status := DStatus.cancelled, transactionId := some "ORD1" } := by
  constructor
  · simp [donationCancel, findDonation, setStatus, List.find?]
  · simp [donationCancel, findDonation, setStatus, List.find?]

/-- Claim C2 (amended): the administrative settlement routes respect the
terminal states — reject leaves a `completed` donation unchanged and
confirm changes nothing unless the status is `pending` or
`awaiting_verification` — but the donor-facing routes do not: the cancel
route sets the status to `cancelled` and the manual-payment confirm route
sets it to `awaiting_verification` regardless of the donation's current
status, terminal or not. -/
theorem claim2_transitions_amended (st : AppState) (i : Nat) (d : Donation)
    (h : findDonation st i = some d) :
    (d.status = DStatus.completed → rejectDonation st i = st) ∧
    (d.status ≠ DStatus.pending ∧ d.status ≠ DStatus.awaiting_verification →
        confirmDonation st i = st) ∧
    donationCancel st i = setStatus st i DStatus.cancelled ∧
    confirmManualPayment st i = setStatus st i DStatus.awaiting_verification := by
  refine ⟨?_, ?_, ?_, ?_⟩
  · intro hc
    simp [rejectDonation, h, hc]
  · rintro ⟨h1, h2⟩
    simp [confirmDonation, h, h1, h2]
  · simp [donationCancel, h]
  · simp [confirmManualPayment, h]

/-- Claim C2 amended witness: the amended theorem applied to a concrete
state holding a single `completed` donation. -/
theorem claim2_transitions_amended_witness :
    rejectDonation
        { donations := [{ id := 1, campaignId := 7, amount := 50,
                          status := DStatus.completed, transactionId := none }],
          campaigns := [] } 1 =
      { donations := [{ id := 1, campaignId := 7, amount := 50,
                        status := DStatus.completed, transactionId := none }],
        campaigns := [] } ∧
    donationCancel
        { donations := [{ id := 1, campaignId := 7, amount := 50,
                          status := DStatus.completed, transactionId := none }],
          campaigns := [] } 1 =
      setStatus
        { donations := [{ id := 1, campaignId := 7, amount := 50,
                          status := DStatus.completed, transactionId := none }],
          campaigns := [] } 1 DStatus.cancelled := by
  have T := claim2_transitions_amended
    { donations := [{ id := 1, campaignId := 7, amount := 50,
                      status := DStatus.completed, transactionId := none }],
      campaigns := [] } 1
    { id := 1, campaignId := 7, amount := 50,
      status := DStatus.completed, transactionId := none }
    (by simp [findDonation, List.find?])
  exact ⟨T.1 rfl, T.2.2.1⟩

/-- Claim C7: administrative settlement obeys the transition guards.
Confirm settles (sets `completed` and credits the owning campaign by the
donation's amount, the two commit lines modelled by `settle`) exactly when
the status is `pending` or `awaiting_verification`, and otherwise leaves
the state unchanged with a warning; reject sets `rejected` exactly when
the status is not `completed`, and leaves a completed donation unchanged. -/
theorem claim7_admin_settlement_guards (st : AppState) (i : Nat) (d : Donation)
    (h : findDonation st i = some d) :
    (d.status = DStatus.pending ∨ d.status = DStatus.awaiting_verification →
        confirmDonation st i = settle st d) ∧
    (d.status ≠ DStatus.pending ∧ d.status ≠ DStatus.awaiting_verification →
        confirmDonation st i = st) ∧
    (d.status ≠ DStatus.completed →
        rejectDonation st i = setStatus st i DStatus.rejected) ∧
    (d.status = DStatus.completed → rejectDonation st i = st) := by
  refine ⟨?_, ?_, ?_, ?_⟩
  · intro hc
    rcases hc with hc | hc <;> simp [confirmDonation, h, hc]
  · rintro ⟨h1, h2⟩
    simp [confirmDonation, h, h1, h2]
  · intro hc
    simp [rejectDonation, h, hc]
  · intro hc
    simp [rejectDonation, h, hc]

/-- Claim C7 witness: the guards applied to a concrete state with one
`pending` donation of amount 10 — confirm settles it, reject marks it
rejected — and, via the settle equation, the campaign credit is visible. -/
theorem claim7_admin_settlement_guards_witness :
    confirmDonation
        { donations := [{ id := 1, campaignId := 7, amount := 10,
                          status := DStatus.pending, transactionId := none }],
          campaigns := [{ id := 7, goal_amount := 100, raised_amount := 0 }] } 1 =
      settle
        { donations := [{ id := 1, campaignId := 7, amount := 10,
                          status := DStatus.pending, transactionId := none }],
          campaigns := [{ id := 7, goal_amount := 100, raised_amount := 0 }] }
        { id := 1, campaignId := 7, amount := 10,
          status := DStatus.pending, transactionId := none } ∧
    rejectDonation
        { donations := [{ id := 1, campaignId := 7, amount := 10,
                          status := DStatus.pending, transactionId := none }],
          campaigns := [{ id := 7, goal_amount := 100, raised_amount := 0 }] } 1 =
      setStatus
        { donations := [{ id := 1, campaignId := 7, amount := 10,
                          status := DStatus.pending, transactionId := none }],
          campaigns := [{ id := 7, goal_amount := 100, raised_amount := 0 }] } 1
        DStatus.rejected := by
  have T := claim7_admin_settlement_guards
    { donations := [{ id := 1, campaignId := 7, amount := 10,
                      status := DStatus.pending, transactionId := none }],
      campaigns := [{ id := 7, goal_amount := 100, raised_amount := 0 }] } 1
    { id := 1, campaignId := 7, amount := 10,
      status := DStatus.pending, transactionId := none }
    (by simp [findDonation, List.find?])
  exact ⟨T.1 (Or.inl rfl), T.2.2.1 (by simp)⟩

/-- Claim C3: for any payload whose computed keyed hash does not match the
supplied signature header, both webhook endpoints answer with the
rejection status 400 and return the state unchanged — no donation status
and no campaign total is modified — and the result does not depend on the
event parser at all, so the payload is neither parsed nor acted upon.
Holds for every hash function, state and parser. -/
theorem claim3_webhook_reject_no_mutation (h5 h2 : String → String → String)
    (k s body : String) (st : AppState)
    (p p' : String → Option PaystackEvent) (q q' : String → Option CoinbaseEvent)
    (hps : h5 k body ≠ s) (hcb : h2 k body ≠ s) :
    paystackWebhook h5 (some k) (some s) body p st = (400, st) ∧
    paystackWebhook h5 (some k) (some s) body p st =
      paystackWebhook h5 (some k) (some s) body p' st ∧
    coinbaseWebhook h2 (some k) (some s) body q st = (400, st) ∧
    coinbaseWebhook h2 (some k) (some s) body q st =
      coinbaseWebhook h2 (some k) (some s) body q' st := by
  have d5 : decide (h5 k body = s) = false := decide_eq_false hps
  have d2 : decide (h2 k body = s) = false := decide_eq_false hcb
  have e1 : paystackVerifyWebhook h5 (some k) (some s) body = Except.ok false := by
    simp [paystackVerifyWebhook, d5]
  have e2 : coinbaseVerifyWebhook h2 (some k) (some s) body = Except.ok false := by
    simp [coinbaseVerifyWebhook, d2]
  refine ⟨?_, ?_, ?_, ?_⟩ <;> simp [paystackWebhook, coinbaseWebhook, e1, e2]

/-- Claim C3 witness: a concrete mismatching signature against a state
holding a pending donation that a parsed event would otherwise settle. -/
theorem claim3_webhook_reject_no_mutation_witness :
    paystackWebhook (fun _ _ => "aaaa") (some "sekret") (some "zzzz") "raw-body"
        (fun _ => some { event := "charge.success", reference := "DON-1" })
        { donations := [{ id := 1, campaignId := 7, amount := 10,
                          status := DStatus.pending, transactionId := some "DON-1" }],
          campaigns := [{ id := 7, goal_amount := 100, raised_amount := 0 }] } =
      (400,
        { donations := [{ id := 1, campaignId := 7, amount := 10,
                          status := DStatus.pending, transactionId := some "DON-1" }],
          campaigns := [{ id := 7, goal_amount := 100, raised_amount := 0 }] }) ∧
    coinbaseWebhook (fun _ _ => "aaaa") (some "sekret") (some "zzzz") "raw-body"
        (fun _ => some { etype := "charge:confirmed", chargeId := "C1", donationId := some 1 })
        { donations := [{ id := 1, campaignId := 7, amount := 10,
                          status := DStatus.pending, transactionId := some "DON-1" }],
          campaigns := [{ id := 7, goal_amount := 100, raised_amount := 0 }] } =
      (400,
        { donations := [{ id := 1, campaignId := 7, amount := 10,
                          status := DStatus.pending, transactionId := some "DON-1" }],
          campaigns := [{ id := 7, goal_amount := 100, raised_amount := 0 }] }) := by
  have T := claim3_webhook_reject_no_mutation (fun _ _ => "aaaa") (fun _ _ => "aaaa")
    "sekret" "zzzz" "raw-body"
    { donations := [{ id := 1, campaignId := 7, amount := 10,
                      status := DStatus.pending, transactionId := some "DON-1" }],
      campaigns := [{ id := 7, goal_amount := 100, raised_amount := 0 }] }
    (fun _ => some { event := "charge.success", reference := "DON-1" })
    (fun _ => some { event := "charge.success", reference := "DON-1" })
    (fun _ => some { etype := "charge:confirmed", chargeId := "C1", donationId := some 1 })
    (fun _ => some { etype := "charge:confirmed", chargeId := "C1", donationId := some 1 })
    (by decide) (by decide)
  exact ⟨T.1, T.2.2.1⟩

/-- Claim C4 counterexample: a donation creation request referencing a
payment method whose `active` flag is false is NOT refused — the route
looks the method up with a plain `get_or_404`, never consulting `active`,
and persists the Donation.  Here method 3 is inactive, yet a pending
Donation row of amount 10 is persisted. -/
theorem claim4_inactive_method_persists_cex :
    (([{ id := 3, ptype := "paystack", active := false }] : List PMethod).find?
        (fun m => m.id == 3)) =
      some { id := 3, ptype := "paystack", active := false } ∧
    persistedDonation
        (donate true [{ id := 3, ptype := "paystack", active := false }]
          (some "Ada") (some "ada@example.com") (some 10) (some 3) 11 7) =
      some { id := 11, campaignId := 7, amount := 10,
             status := DStatus.pending, transactionId := none } := by
  constructor
  · simp [List.find?]
  · simp [donate, persistedDonation, List.find?]
    norm_num

/-- Claim C4 (amended): a request with amount ≤ 0 or a nonexistent payment
method is refused before any Donation row is persisted, but the `active`
flag is never checked: whenever the referenced method exists — active or
not — and the remaining validations pass, a pending Donation is
persisted. -/
theorem claim4_donate_validation_amended (methods : List PMethod) (nm em : String)
    (a : ℚ) (pmid newId campId : Nat) (pm : PMethod) :
    (a ≤ 0 → persistedDonation (donate true methods (some nm) (some em) (some a)
        (some pmid) newId campId) = none) ∧
    (methods.find? (fun m => m.id == pmid) = none →
        persistedDonation (donate true methods (some nm) (some em) (some a)
          (some pmid) newId campId) = none) ∧
    (methods.find? (fun m => m.id == pmid) = some pm → 0 < a →
        persistedDonation (donate true methods (some nm) (some em) (some a)
          (some pmid) newId campId) =
          some { id := newId, campaignId := campId, amount := a,
                 status := DStatus.pending, transactionId := none }) := by
  refine ⟨?_, ?_, ?_⟩
  · intro ha
    cases hf : methods.find? (fun m => m.id == pmid) <;>
      simp [donate, persistedDonation, hf, ha]
  · intro hf
    simp [donate, persistedDonation, hf]
  · intro hf hpos
    have hna : ¬ a ≤ 0 := not_le.mpr hpos
    by_cases hb : pm.ptype = "bank" ∨ pm.ptype = "crypto" <;>
      simp [donate, persistedDonation, hf, hna, hb]

/-- Claim C4 amended witness: amount 0 is refused (nothing persisted);
amount 5 against an existing method is persisted as a pending Donation. -/
theorem claim4_donate_validation_amended_witness :
    persistedDonation (donate true [{ id := 2, ptype := "paypal", active := true }]
        (some "Ada") (some "ada@example.com") (some 0) (some 2) 11 7) = none ∧
    persistedDonation (donate true [{ id := 2, ptype := "paypal", active := true }]
        (some "Ada") (some "ada@example.com") (some 5) (some 2) 11 7) =
      some { id := 11, campaignId := 7, amount := 5,
             status := DStatus.pending, transactionId := none } := by
  constructor
  · exact (claim4_donate_validation_amended
      [{ id := 2, ptype := "paypal", active := true }] "Ada" "ada@example.com" 0 2 11 7
      { id := 2, ptype := "paypal", active := true }).1 le_rfl
  · exact (claim4_donate_validation_amended
      [{ id := 2, ptype := "paypal", active := true }] "Ada" "ada@example.com" 5 2 11 7
      { id := 2, ptype := "paypal", active := true }).2.2
      (by simp [List.find?]) (by norm_num)

/-- Claim C5 counterexample: the verifiers are NOT total on the claimed
inputs.  With the shared secret unset, Paystack's verifier raises
`AttributeError` (from `None.encode('utf-8')`) instead of returning false;
with the secret set but the signature header absent, Coinbase's verifier
raises `TypeError` (from `hmac.compare_digest(str, None)`). -/
theorem claim5_verifier_raises_cex :
    paystackVerifyWebhook (fun _ _ => "h") none (some "sig") "body" =
      Except.error PyErr.attributeError ∧
    coinbaseVerifyWebhook (fun _ _ => "h") (some "k") none "body" =
      Except.error PyErr.typeError := ⟨rfl, rfl⟩

/-- Claim C5 (amended): with the secret set, Paystack's verifier returns
false without raising when the signature header is absent (Python's
`str == None`); but with the secret unset both verifiers raise
`AttributeError`, and Coinbase's verifier raises `TypeError` when the
signature header is absent, because `hmac.compare_digest` rejects `None`.
Holds for every hash function and body. -/
theorem claim5_verifier_totality_amended (h5 h2 : String → String → String)
    (k body : String) (sig : Option String) :
    paystackVerifyWebhook h5 none sig body = Except.error PyErr.attributeError ∧
    paystackVerifyWebhook h5 (some k) none body = Except.ok false ∧
    coinbaseVerifyWebhook h2 none sig body = Except.error PyErr.attributeError ∧
    coinbaseVerifyWebhook h2 (some k) none body = Except.error PyErr.typeError :=
  ⟨rfl, rfl, rfl, rfl⟩

/-- Claim C6 counterexample: no outbound adapter call carries a timeout.
Each request the adapters build — PayPal token exchange, order creation
and capture, Paystack transaction setup and verification, Coinbase charge
creation — passes no `timeout` keyword to `requests`, so the library
default (wait without bound) applies, refuting the claimed explicit short
timeout bound. -/
theorem claim6_no_timeout_cex :
    (paypalTokenReq "https://api.sandbox.paypal.com").timeout = none ∧
    (paypalOrderReq "https://api.sandbox.paypal.com").timeout = none ∧
    (paypalCaptureReq "https://api.sandbox.paypal.com" "ORD1").timeout = none ∧
    paystackInitReq.timeout = none ∧
    (paystackVerifyReq "DON-1").timeout = none ∧
    coinbaseChargeReq.timeout = none :=
  ⟨rfl, rfl, rfl, rfl, rfl, rfl⟩

/-- Claim C6 (amended): the outbound calls carry no explicit timeout, but
the failure handling half of the claim holds — every raised exception
(connection failure, authentication failure via `raise_for_status`,
malformed response) is caught and returned as a structured failure value
(`None` from the token exchange, an error dict from order creation and
transaction setup), and on such a failure the donate route leaves the
already-persisted pending Donation row untouched. -/
theorem claim6_structured_failure_amended (e : PyErr) (t m : String)
    (od : Except PyErr OrderData) (d : Donation) :
    getAccessToken (Except.error e) = none ∧
    createOrder none od = OrderResult.err "Failed to authenticate with PayPal" ∧
    createOrder (some t) (Except.error e) = OrderResult.err (pyErrMsg e) ∧
    paystackInitTx (Except.error e) = PInitResult.err (pyErrMsg e) ∧
    appDonatePaypalAfter d (OrderResult.err m) = d ∧
    (paypalTokenReq "https://api.paypal.com").timeout = none :=
  ⟨rfl, rfl, rfl, rfl, rfl, rfl⟩

/-- Claim C8 counterexample: the adapter's conversion is a hard-coded
truncating multiplication by 100 into `'NGN'`, not a configurable-rate
conversion rounded half-up.  At amount 0.505 the source computes
`int(0.505 * 100) = 50` kobo, while the rounding named by the spec gives
51 even at the identity exchange rate. -/
theorem claim8_truncation_not_halfup_cex :
    (paystackInitPayload "ada@example.com" (101 / 200) none).amount = 50 ∧
    specRoundHalfUpMinor 1 (101 / 200) = 51 ∧
    (paystackInitPayload "ada@example.com" (101 / 200) none).currency = "NGN" := by
  refine ⟨?_, ?_, rfl⟩
  · norm_num [paystackInitPayload, pyInt]
  · norm_num [specRoundHalfUpMinor]

/-- Claim C8 (amended): `initialize_transaction` applies no exchange rate
and stores nothing extra; the minor-unit amount it sends is the floor of
`amount * 100` (truncation toward zero, nonnegative amounts), the currency
is hard-coded `'NGN'`, and the sent amount never exceeds the exact
minor-unit value and undershoots it by less than one kobo. -/
theorem claim8_conversion_amended (email : String) (r : Option String) (a : ℚ)
    (ha : 0 ≤ a) :
    (paystackInitPayload email a r).amount = ⌊a * 100⌋ ∧
    ((paystackInitPayload email a r).amount : ℚ) ≤ a * 100 ∧
    a * 100 < ((paystackInitPayload email a r).amount : ℚ) + 1 ∧
    (paystackInitPayload email a r).currency = "NGN" := by
  have h0 : (0 : ℚ) ≤ a * 100 := by positivity
  have hf : (paystackInitPayload email a r).amount = ⌊a * 100⌋ := by
    simp [paystackInitPayload, pyInt_eq_floor _ h0]
  refine ⟨hf, ?_, ?_, rfl⟩
  · rw [hf]
    exact_mod_cast Int.floor_le (a * 100)
  · rw [hf]
    exact_mod_cast Int.lt_floor_add_one (a * 100)

/-- Claim C8 amended witness: at amount 0.505 the floor form and the
bracketing bounds hold concretely. -/
theorem claim8_conversion_amended_witness :
    (paystackInitPayload "ada@example.com" (101 / 200) none).amount =
        ⌊(101 / 200 : ℚ) * 100⌋ ∧
    ((paystackInitPayload "ada@example.com" (101 / 200) none).amount : ℚ) ≤
        (101 / 200 : ℚ) * 100 ∧
    (101 / 200 : ℚ) * 100 <
        ((paystackInitPayload "ada@example.com" (101 / 200) none).amount : ℚ) + 1 ∧
    (paystackInitPayload "ada@example.com" (101 / 200) none).currency = "NGN" :=
  claim8_conversion_amended "ada@example.com" none (101 / 200) (by norm_num)

/-- Claim C9 counterexample: the registry add route persists the submitted
PayPal secret verbatim — the stored column equals the plaintext form
input, so the secret credential is persisted unencrypted. -/
theorem claim9_plaintext_secret_cex :
    (addPaymentMethod
        { name := "PayPal live", ptype := "paypal", details := none,
          crypto_wallet_address := none, crypto_currency := none,
          bank_name := none, account_name := none, account_number := none,
          paypal_client_id := some "cid-123", paypal_secret := some "topsecret",
          paystack_public_key := none,
          paystack_secret_key := none }).paypal_secret = some "topsecret" := by
  simp [addPaymentMethod]

/-- Claim C9 (amended): the payment-method add route stores every
credential field of the selected type exactly as submitted — no call to
`SecurityManager.encrypt_data` occurs on this path, so secret fields
(`paypal_secret`, `paystack_secret_key`) are persisted in plaintext. -/
theorem claim9_secrets_stored_verbatim_amended (f : PMForm) :
    (f.ptype = "paypal" →
        (addPaymentMethod f).paypal_secret = f.paypal_secret ∧
        (addPaymentMethod f).paypal_client_id = f.paypal_client_id) ∧
    (f.ptype = "paystack" →
        (addPaymentMethod f).paystack_secret_key = f.paystack_secret_key ∧
        (addPaymentMethod f).paystack_public_key = f.paystack_public_key) := by
  constructor
  · intro h
    simp [addPaymentMethod, h]
  · intro h
    simp [addPaymentMethod, h]

/-- Claim C9 amended witness: concrete paypal and paystack forms stored
verbatim. -/
theorem claim9_secrets_stored_verbatim_amended_witness :
    (addPaymentMethod
        { name := "PP", ptype := "paypal", details := none,
          crypto_wallet_address := none, crypto_currency := none,
          bank_name := none, account_name := none, account_number := none,
          paypal_client_id := some "cid", paypal_secret := some "sec-1",
          paystack_public_key := none, paystack_secret_key := none }).paypal_secret =
      some "sec-1" ∧
    (addPaymentMethod
        { name := "PS", ptype := "paystack", details := none,
          crypto_wallet_address := none, crypto_currency := none,
          bank_name := none, account_name := none, account_number := none,
          paypal_client_id := none, paypal_secret := none,
          paystack_public_key := some "pk",
          paystack_secret_key := some "sk-9" }).paystack_secret_key = some "sk-9" :=
  ⟨((claim9_secrets_stored_verbatim_amended
      { name := "PP", ptype := "paypal", details := none,
        crypto_wallet_address := none, crypto_currency := none,
        bank_name := none, account_name := none, account_number := none,
        paypal_client_id := some "cid", paypal_secret := some "sec-1",
        paystack_public_key := none, paystack_secret_key := none }).1 rfl).1,
   ((claim9_secrets_stored_verbatim_amended
      { name := "PS", ptype := "paystack", details := none,
        crypto_wallet_address := none, crypto_currency := none,
        bank_name := none, account_name := none, account_number := none,
        paypal_client_id := none, paypal_secret := none,
        paystack_public_key := some "pk",
        paystack_secret_key := some "sk-9" }).2 rfl).1⟩

/-- Claim C10: `progress_percentage` never divides by zero — the division
is guarded by `goal_amount > 0` — returns 0 whenever the goal is
nonpositive, and for every campaign whose raised amount is nonnegative
(the system creates campaigns at 0.0 and only ever adds positive donation
amounts) the result lies in [0, 100]. -/
theorem claim10_progress_percentage_bounds (c : Campaign)
    (h : 0 ≤ c.raised_amount) :
    0 ≤ progress_percentage c ∧ progress_percentage c ≤ 100 ∧
    (c.goal_amount ≤ 0 → progress_percentage c = 0) := by
  unfold progress_percentage
  by_cases hg : 0 < c.goal_amount
  · rw [if_pos hg]
    have hq : (0 : ℚ) ≤ c.raised_amount / c.goal_amount * 100 := by positivity
    have hfl : (0 : ℤ) ≤ ⌊c.raised_amount / c.goal_amount * 100⌋ :=
      Int.floor_nonneg.mpr hq
    rw [pyInt_eq_floor _ hq]
    refine ⟨le_min hfl (by norm_num), min_le_right _ _, ?_⟩
    intro hle
    exact absurd hg (not_lt.mpr hle)
  · rw [if_neg hg]
    exact ⟨le_refl 0, by norm_num, fun _ => rfl⟩

/-- Claim C10 witness: a concrete campaign with goal 200 and raised 50. -/
theorem claim10_progress_percentage_bounds_witness :
    0 ≤ progress_percentage { id := 7, goal_amount := 200, raised_amount := 50 } ∧
    progress_percentage { id := 7, goal_amount := 200, raised_amount := 50 } ≤ 100 ∧
    ((200 : ℚ) ≤ 0 →
      progress_percentage { id := 7, goal_amount := 200, raised_amount := 50 } = 0) :=
  claim10_progress_percentage_bounds
    { id := 7, goal_amount := 200, raised_amount := 50 } (by norm_num)
